import Mathlib

/-!
Verification of the request-normalization and dual-protocol completion
strategy of the Star Chart AI proxy.

The repository ships two hosting variants of the same HTTP gateway:

* an edge request handler (worker.js, the standalone-service variant), and
* a long-running Node process (server.js, embedded in start.command, the
  persistent-service variant).

This file gives a shallow embedding of the JavaScript core of both variants:
JavaScript values are modelled by the inductive type `JValue`, strings are
Lean strings viewed as lists of characters, and the provider (network) is
modelled by passing the HTTP responses of the at-most-two outbound calls as
explicit arguments while returning the list of calls actually issued.
Exceptions that can escape a strategy (a TypeError from iterating a
non-iterable value) are modelled by an `Option` result, `none` meaning the
exception propagates to the HTTP boundary.
-/

namespace StarChart

set_option maxRecDepth 8192

/-- Model of a JavaScript (JSON-extended) runtime value.  `undefined` is a
separate constructor since the sources distinguish it from `null` through
optional chaining and `typeof` checks.  Numbers are modelled as integers:
no claim depends on non-integral numerics, and object field lists are read
with first-match lookup (parsed JSON objects carry each key once). -/
inductive JValue where
  | undefined
  | null
  | bool (b : Bool)
  | num (n : Int)
  | str (s : String)
  | arr (elems : List JValue)
  | obj (fields : List (String × JValue))

/-- JavaScript truthiness of a value (`Boolean(v)`). -/
def jsTruthy : JValue → Bool
  | .undefined => false
  | .null => false
  | .bool b => b
  | .num n => n != 0
  | .str s => s != ""
  | .arr _ => true
  | .obj _ => true

/-- Whether `typeof v === "object"` holds; true for `null`, arrays and
objects, false for undefined, booleans, numbers and strings. -/
def typeofIsObject : JValue → Bool
  | .null => true
  | .arr _ => true
  | .obj _ => true
  | _ => false

/-- Property read `v.k` (also covering the optional-chained reads the
sources perform: on `null`/`undefined` the chain short-circuits to
`undefined`, and non-objects have none of the properties accessed by this
code).  Objects use first-match field lookup. -/
def getProp (v : JValue) (key : String) : JValue :=
  match v with
  | .obj fields =>
    match fields.lookup key with
    | some x => x
    | none => .undefined
  | _ => .undefined

/-- Index read `v?.[0]` as used on the `choices` field: first element of an
array, first character of a string, field "0" of an object, otherwise
`undefined`. -/
def getIndex0 : JValue → JValue
  | .arr [] => .undefined
  | .arr (x :: _) => x
  | .str s =>
    match s.data with
    | [] => .undefined
    | c :: _ => .str (String.singleton c)
  | .obj fields =>
    match fields.lookup "0" with
    | some x => x
    | none => .undefined
  | _ => .undefined

mutual
/-- The `String(v)` coercion: `undefined`/`null`/booleans/numbers print
their literal, objects print `[object Object]`, arrays join their
coerced elements with commas (`null`/`undefined` elements print empty). -/
def jsToString : JValue → String
  | .undefined => "undefined"
  | .null => "null"
  | .bool b => if b then "true" else "false"
  | .num n => toString n
  | .str s => s
  | .obj _ => "[object Object]"
  | .arr xs => String.intercalate "," (jsToStringElems xs)

/-- Element rendering for `Array.prototype.toString` (join with ","). -/
def jsToStringElems : List JValue → List String
  | [] => []
  | .undefined :: rest => "" :: jsToStringElems rest
  | .null :: rest => "" :: jsToStringElems rest
  | x :: rest => jsToString x :: jsToStringElems rest
end

/-- The ECMAScript white-space and line-terminator characters removed by
`String.prototype.trim`. -/
def jsWhitespace (c : Char) : Bool :=
  c == ' ' || c == '\t' || c == '\n' || c == '\r' || c == '\u000B' || c == '\u000C' ||
  c == '\u00A0' || c == '\u1680' ||
  (decide ('\u2000' ≤ c) && decide (c ≤ '\u200A')) ||
  c == '\u2028' || c == '\u2029' || c == '\u202F' || c == '\u205F' ||
  c == '\u3000' || c == '\uFEFF'

/-- Model of `s.trim()`: drop leading and trailing white space. -/
def jsTrim (s : String) : String :=
  String.mk (((s.data.dropWhile jsWhitespace).reverse.dropWhile jsWhitespace).reverse)

/-- Model of `s.slice(0, n)`: the first `n` characters.  (JavaScript slices
by UTF-16 code units; the embedding treats strings as character sequences,
which agrees on the basic multilingual plane.) -/
def strTake (s : String) (n : Nat) : String :=
  String.mk (s.data.take n)

/-- The expression `String(input || "")` both variants apply to the inbound
`input` value: the empty string when `input` is falsy, its string coercion
otherwise. -/
def inputString (input : JValue) : String :=
  if jsTruthy input then jsToString input else ""

/-- The new user turn content both variants build from the request input:
`String(input || "").trim().slice(0, 4000)` (worker.js line 91,
start.command line 132). -/
def userInputOf (input : JValue) : String :=
  strTake (jsTrim (inputString input)) 4000

/-- Lowercase hexadecimal digit. -/
def hexDigit (n : Nat) : Char :=
  if n < 10 then Char.ofNat (48 + n) else Char.ofNat (87 + n)

/-- Four-digit lowercase hexadecimal rendering, as in a JSON `\uXXXX`
escape. -/
def hex4 (n : Nat) : String :=
  String.mk [hexDigit (n / 4096 % 16), hexDigit (n / 256 % 16),
             hexDigit (n / 16 % 16), hexDigit (n % 16)]

/-- JSON escaping of one character inside a quoted string, following the
serialization used by the JavaScript standard library. -/
def escChar (c : Char) : String :=
  if c == '"' then "\\\""
  else if c == '\\' then "\\\\"
  else if c == '\n' then "\\n"
  else if c == '\r' then "\\r"
  else if c == '\t' then "\\t"
  else if c == '\u0008' then "\\b"
  else if c == '\u000C' then "\\f"
  else if c.toNat < 32 then "\\u" ++ hex4 c.toNat
  else String.singleton c

/-- JSON quoting of a string value or object key. -/
def quoteJson (s : String) : String :=
  "\"" ++ String.join (s.data.map escChar) ++ "\""

/-- Indentation produced by `JSON.stringify(_, null, 2)` at nesting
depth `d`. -/
def indentStr (d : Nat) : String :=
  String.mk (List.replicate (2 * d) ' ')

mutual
/-- Model of `JSON.stringify(v, null, 2)` at nesting depth `d`: `none`
models the JavaScript call returning `undefined` (only for the `undefined`
value; functions and symbols do not occur in this embedding). -/
def stringifyPretty : JValue → Nat → Option String
  | .undefined, _ => none
  | .null, _ => some "null"
  | .bool b, _ => some (if b then "true" else "false")
  | .num n, _ => some (toString n)
  | .str s, _ => some (quoteJson s)
  | .arr [], _ => some "[]"
  | .arr (x :: xs), d =>
    some ("[\n" ++
      String.intercalate ",\n" (stringifyPrettyElems (x :: xs) (d + 1)) ++
      "\n" ++ indentStr d ++ "]")
  | .obj fields, d =>
    match stringifyPrettyMembers fields (d + 1) with
    | [] => some "{}"
    | m :: ms =>
      some ("\x7b\n" ++ String.intercalate ",\n" (m :: ms) ++
        "\n" ++ indentStr d ++ "\x7d")

/-- Array elements of the indented serialization; an `undefined` element
prints as `null`. -/
def stringifyPrettyElems : List JValue → Nat → List String
  | [], _ => []
  | x :: rest, d =>
    (indentStr d ++ (stringifyPretty x d).getD "null") ::
      stringifyPrettyElems rest d

/-- Object members of the indented serialization; members whose value
serializes to `undefined` are omitted. -/
def stringifyPrettyMembers : List (String × JValue) → Nat → List String
  | [], _ => []
  | (k, v) :: rest, d =>
    match stringifyPretty v d with
    | none => stringifyPrettyMembers rest d
    | some sv =>
      (indentStr d ++ quoteJson k ++ ": " ++ sv) ::
        stringifyPrettyMembers rest d
end

mutual
/-- Model of the compact `JSON.stringify(v)` used when relaying a provider
error payload whose `error.message` field is missing. -/
def stringifyCompact : JValue → Option String
  | .undefined => none
  | .null => some "null"
  | .bool b => some (if b then "true" else "false")
  | .num n => some (toString n)
  | .str s => some (quoteJson s)
  | .arr xs => some ("[" ++ String.intercalate "," (stringifyCompactElems xs) ++ "]")
  | .obj fields =>
    some ("\x7b" ++ String.intercalate "," (stringifyCompactMembers fields) ++ "\x7d")

/-- Array elements of the compact serialization. -/
def stringifyCompactElems : List JValue → List String
  | [] => []
  | x :: rest => (stringifyCompact x).getD "null" :: stringifyCompactElems rest

/-- Object members of the compact serialization. -/
def stringifyCompactMembers : List (String × JValue) → List String
  | [] => []
  | (k, v) :: rest =>
    match stringifyCompact v with
    | none => stringifyCompactMembers rest
    | some sv => (quoteJson k ++ ":" ++ sv) :: stringifyCompactMembers rest
end

/-- One sanitized conversation turn (also used for the wire messages of the
secondary protocol, where the role may additionally be "system"). -/
structure Turn where
  role : String
  content : String

/-- Validation both copies of `normalizeHistory` apply to one raw history
element (worker.js lines 53-60, start.command lines 95-102):
skip unless the element is a truthy object, its `role` is the string
"user" or "assistant" and its `content` a string with non-empty trim;
the kept turn truncates the trimmed content to 4000 characters.  The
sequential continue-guards of the loop body are combined into one
filter-map step. -/
def validTurn (item : JValue) : Option Turn :=
  if jsTruthy item && typeofIsObject item then
    match getProp item "role", getProp item "content" with
    | .str r, .str c =>
      if (r == "user" || r == "assistant") && jsTrim c != "" then
        some ⟨r, strTake (jsTrim c) 4000⟩
      else none
    | _, _ => none
  else none

/-- Model of `safe.slice(-24)`: the last (at most) `n` elements. -/
def takeLast (n : Nat) (l : List α) : List α :=
  l.drop (l.length - n)

/-- Model of `normalizeHistory` (identical in both variants): a non-array
yields the empty history, otherwise the validated turns with the last 24
kept. -/
def normalizeHistory (history : JValue) : List Turn :=
  match history with
  | .arr items => takeLast 24 (items.filterMap validTurn)
  | _ => []

/-- Rendering of one turn inside the flattened transcript sent to the
primary protocol: `role === "user" ? "User" : "Assistant"` then
`": "` then the content. -/
def renderTurn (t : Turn) : String :=
  (if t.role == "user" then "User" else "Assistant") ++ ": " ++ t.content

/-- The fixed three-sentence persona block, identical in both variants. -/
def systemParts : List String :=
  ["You are Star Chart AI, a helpful assistant embedded in a factory-floor telemetry dashboard called Star Chart Systems.",
   "Answer as a pragmatic operations/industrial engineer. Be concise and specific.",
   "If the user asks for data not in the telemetry snapshot, say what you can infer and what you would need to confirm.",
  ]

/-- `systemParts.join(" ")`. -/
def personaText : String :=
  String.intercalate " " systemParts

/-- The telemetry serialization both variants embed:
`telemetry && typeof telemetry === "object" ? JSON.stringify(telemetry, null, 2) : "{}"`.
The `getD` default is unreachable: under the guard the value is an object
or an array, whose indented serialization is always defined. -/
def telemetryJson (telemetry : JValue) : String :=
  if jsTruthy telemetry && typeofIsObject telemetry then
    (stringifyPretty telemetry 0).getD "undefined"
  else "{}"

/-- The composed system instruction, identical in both variants:
persona text, a blank line, the label line, then the serialized
telemetry. -/
def systemPrompt (telemetry : JValue) : String :=
  personaText ++ "\n\nTelemetry snapshot (JSON):\n" ++ telemetryJson telemetry

/-- One provider HTTP response: the status code and the parsed JSON body.
`body = none` models `response.json()` rejecting, which both variants
convert to `null` via `.catch(() => null)`. -/
structure HttpResp where
  status : Nat
  body : Option JValue

/-- `response.ok`: the status lies in the 200-299 success range. -/
def httpOk (r : HttpResp) : Bool :=
  decide (200 ≤ r.status) && decide (r.status ≤ 299)

/-- Best-effort extraction of a provider error detail, identical in all
four call sites:
`data && typeof data === "object" ? data.error?.message || JSON.stringify(data) : "Unknown error"`.
The `getD` default is unreachable: under the guard `data` is an object or
an array, whose compact serialization is always defined. -/
def errorDetail (data : JValue) : JValue :=
  if jsTruthy data && typeofIsObject data then
    let msg := getProp (getProp data "error") "message"
    if jsTruthy msg then msg
    else .str ((stringifyCompact data).getD "undefined")
  else .str "Unknown error"

/-- The result record a completion strategy produces.  `none` fields model
properties absent from the JavaScript object (`undefined`).  The error
value is kept as a `JValue` because a relayed provider `error.message`
need not be a string. -/
structure CompletionResult where
  ok : Bool
  status : Nat
  text : Option String := none
  error : Option JValue := none
  model : Option String := none

/-- One outbound provider call together with the request payload fields the
claims inspect (the fixed sampling temperature 0.4 and output-length caps
350 are constants not referenced by any claim and are elided). -/
inductive ApiCall where
  | responses (model instructions input : String)
  | chatCompletions (model : String) (messages : List Turn)

/-- Whether a call targets the secondary (Chat Completions) protocol. -/
def isChatCall : ApiCall → Bool
  | .responses _ _ _ => false
  | .chatCompletions _ _ => true

/-- The configuration surface read by the strategies.  Environment
variables hold strings or are unset. -/
structure Env where
  OPENAI_API_KEY : Option String
  OPENAI_MODEL : Option String
  CCD_AI_OPENAI_MODEL : Option String

/-- Falsiness of an environment variable: unset or the empty string. -/
def envFalsy : Option String → Bool
  | none => true
  | some s => s == ""

/-- The defaulting pattern `value || dflt` on an environment variable. -/
def envOrDefault (v : Option String) (dflt : String) : String :=
  match v with
  | none => dflt
  | some s => if s == "" then dflt else s

/-- The iteration target of `for (const x of v || [])`: a falsy `v` gives
the empty iteration, an array iterates its elements, a string its
characters; iterating any other truthy value throws a TypeError
(`none`). -/
def jsIterTarget (v : JValue) : Option (List JValue) :=
  if !(jsTruthy v) then some []
  else
    match v with
    | .arr xs => some xs
    | .str s => some (s.data.map fun c => .str (String.singleton c))
    | _ => none

/-- The inner filter of the chunk scan:
`part?.type === "output_text" && typeof part.text === "string"` keeps
`part.text`. -/
def partText (part : JValue) : Option String :=
  match getProp part "type" with
  | .str t =>
    if t == "output_text" then
      match getProp part "text" with
      | .str s => some s
      | _ => none
    else none
  | _ => none

/-- The nested loop over `data?.output` items and their `content` parts; a
TypeError from either level propagates as `none`. -/
def collectOuter : List JValue → Option (List String)
  | [] => some []
  | item :: rest =>
    match jsIterTarget (getProp item "content") with
    | none => none
    | some parts =>
      match collectOuter rest with
      | none => none
      | some restChunks => some (parts.filterMap partText ++ restChunks)

/-- The chunk collection both variants run when the primary response has no
usable `output_text` field. -/
def collectChunks (data : JValue) : Option (List String) :=
  match jsIterTarget (getProp data "output") with
  | none => none
  | some items => collectOuter items

/-- The fallback text extraction of worker.js (lines 129-137) when the
direct `output_text` field is unusable: concatenate the tagged output
chunks, join with newlines, trim; no text is a 502 failure. -/
def workerChunksResult (data : JValue) (model : String) : Option CompletionResult :=
  match collectChunks data with
  | none => none
  | some chunks =>
    let text := jsTrim (String.intercalate "\n" chunks)
    if text == "" then
      some { ok := false, status := 502, error := some (.str "OpenAI response missing text.") }
    else
      some { ok := true, status := 200, text := some text, model := some model }

/-- Model of worker.js `callOpenAI` (lines 70-138): the single
primary-protocol attempt of the standalone-service variant.  The first
component is the produced result (`none` when a TypeError escapes), the
second the provider calls issued. -/
def workerCallOpenAI (env : Env) (input history telemetry : JValue)
    (primary : HttpResp) : Option CompletionResult × List ApiCall :=
  if envFalsy env.OPENAI_API_KEY then
    (some { ok := false, status := 500, error := some (.str "Missing OPENAI_API_KEY.") }, [])
  else
    let model := envOrDefault env.OPENAI_MODEL "gpt-4.1"
    let sysPrompt := systemPrompt telemetry
    let userInput := userInputOf input
    if userInput == "" then
      (some { ok := false, status := 400, error := some (.str "Missing input.") }, [])
    else
      let transcript := String.intercalate "\n"
        ((normalizeHistory history).map renderTurn ++ ["User: " ++ userInput])
      let call : ApiCall := .responses model sysPrompt transcript
      let data := primary.body.getD .null
      if !(httpOk primary) then
        (some { ok := false, status := primary.status, error := some (errorDetail data) }, [call])
      else
        match getProp data "output_text" with
        | .str s =>
          if jsTrim s != "" then
            (some { ok := true, status := 200, text := some (jsTrim s), model := some model },
             [call])
          else (workerChunksResult data model, [call])
        | _ => (workerChunksResult data model, [call])

/-- The fallback text extraction of server.js (`tryResponsesApi` lines
170-180 of start.command) when the direct `output_text` field is unusable:
concatenate the tagged output chunks, join with newlines, trim; no text is
a 502 failure. -/
def serverChunksResult (data : JValue) : Option CompletionResult :=
  match collectChunks data with
  | none => none
  | some chunks =>
    let text := jsTrim (String.intercalate "\n" chunks)
    if text == "" then
      some { ok := false, status := 502, error := some (.str "OpenAI response missing text.") }
    else some { ok := true, status := 200, text := some text }

/-- The primary-protocol attempt of server.js (`tryResponsesApi`, lines
135-181 of start.command), as a function of the provider response.  Unlike
the worker, a usable direct `output_text` is returned untrimmed. -/
def serverTryResponses (resp : HttpResp) : Option CompletionResult :=
  let data := resp.body.getD .null
  if !(httpOk resp) then
    some { ok := false, status := resp.status, error := some (errorDetail data) }
  else
    match getProp data "output_text" with
    | .str s =>
      if jsTrim s != "" then
        some { ok := true, status := 200, text := some s }
      else serverChunksResult data
    | _ => serverChunksResult data

/-- The secondary-protocol attempt of server.js (`tryChatCompletionsApi`,
lines 183-213 of start.command), as a function of the provider
response. -/
def serverTryChat (resp : HttpResp) : CompletionResult :=
  let data := resp.body.getD .null
  if !(httpOk resp) then
    { ok := false, status := resp.status, error := some (errorDetail data) }
  else
    match getProp (getProp (getIndex0 (getProp data "choices")) "message") "content" with
    | .str s =>
      if jsTrim s == "" then
        { ok := false, status := 502, error := some (.str "OpenAI response missing text.") }
      else { ok := true, status := 200, text := some s }
    | _ => { ok := false, status := 502, error := some (.str "OpenAI response missing text.") }

/-- The HTTP statuses of a failed primary attempt that make the secondary
protocol eligible (start.command line 218). -/
def fallbackableStatuses : List Nat :=
  [400, 404, 405, 415]

/-- Model of server.js `callOpenAI` (lines 106-229 of start.command): the
dual-protocol completion strategy of the persistent-service variant.
Unlike the worker it performs no empty-input rejection; the composite
failure concatenates both labeled error messages (template literals
string-coerce the error values) and keeps the secondary status. -/
def serverCallOpenAI (env : Env) (input history telemetry : JValue)
    (primary secondary : HttpResp) : Option CompletionResult × List ApiCall :=
  if envFalsy env.OPENAI_API_KEY then
    (some { ok := false, status := 500,
            error := some (.str "Missing OPENAI_API_KEY in environment.") }, [])
  else
    let model := envOrDefault env.CCD_AI_OPENAI_MODEL "gpt-4.1-mini"
    let sysPrompt := systemPrompt telemetry
    let messages : List Turn :=
      ⟨"system", sysPrompt⟩ :: (normalizeHistory history ++ [⟨"user", userInputOf input⟩])
    let transcript := String.intercalate "\n"
      ((messages.filter fun m => m.role != "system").map renderTurn)
    let pCall : ApiCall := .responses model sysPrompt transcript
    match serverTryResponses primary with
    | none => (none, [pCall])
    | some r1 =>
      if r1.ok then (some r1, [pCall])
      else if r1.status ∈ fallbackableStatuses then
        let cCall : ApiCall := .chatCompletions model messages
        let r2 := serverTryChat secondary
        if r2.ok then (some r2, [pCall, cCall])
        else
          (some { ok := false, status := r2.status,
                  error := some (.str ("Responses API error: " ++
                    jsToString (r1.error.getD .undefined) ++
                    "\nChat Completions error: " ++
                    jsToString (r2.error.getD .undefined))) },
           [pCall, cCall])
      else (some r1, [pCall])

/-- An HTTP response emitted by a hosting variant for a chat request:
either a JSON document (the envelope object, before serialization) or a
plain-text body. -/
inductive HttpOut where
  | json (status : Nat) (body : JValue)
  | text (status : Nat) (content : String)

/-- A result property that may be absent, as an envelope field value. -/
def optStr : Option String → JValue
  | some s => .str s
  | none => .undefined

/-- Model of the worker body read `readJson(request).catch(() => null)`
(worker.js lines 64-68 and 167): an empty-after-trim raw body yields
`null`, and a body `JSON.parse` rejects (`parsed = none`) is caught and
also yields `null`. -/
def workerReadJson (raw : String) (parsed : Option JValue) : JValue :=
  if jsTrim raw == "" then .null
  else parsed.getD .null

/-- Model of the worker `/api/chat` POST handling (worker.js lines
167-175).  The raw request body is paired with the outcome `parsed` of
`JSON.parse` on it (`none` when parsing throws).  A TypeError escaping
`callOpenAI` is uncaught in this variant (`none`). -/
def workerChatResponse (env : Env) (raw : String) (parsed : Option JValue)
    (primary : HttpResp) : Option HttpOut :=
  let body := workerReadJson raw parsed
  match (workerCallOpenAI env (getProp body "input") (getProp body "history")
      (getProp body "telemetry") primary).1 with
  | none => none
  | some r =>
    if r.ok then
      some (.json 200 (.obj
        [("ok", .bool true), ("text", optStr r.text), ("model", optStr r.model)]))
    else
      some (.json r.status (.obj
        [("ok", .bool false), ("error", r.error.getD .undefined)]))

/-- Model of the server body read `readJson(req)` (start.command lines
79-90): a body of more than 1,000,000 bytes throws before parsing, an
empty-after-trim body returns `null`, and a body `JSON.parse` rejects
throws. -/
def serverReadJson (raw : String) (parsed : Option JValue) : Except String JValue :=
  if 1000000 < raw.utf8ByteSize then .error "Request too large"
  else if jsTrim raw == "" then .ok .null
  else
    match parsed with
    | none => .error "SyntaxError"
    | some v => .ok v

/-- Model of the server `/api/chat` POST handling (start.command lines
294-307) together with the surrounding catch-all (lines 261-317): any
exception - from the body read or from `callOpenAI` - becomes the
plain-text response `500 "Server error"`. -/
def serverChatResponse (env : Env) (raw : String) (parsed : Option JValue)
    (primary secondary : HttpResp) : HttpOut :=
  match serverReadJson raw parsed with
  | .error _ => .text 500 "Server error"
  | .ok body =>
    match (serverCallOpenAI env (getProp body "input") (getProp body "history")
        (getProp body "telemetry") primary secondary).1 with
    | none => .text 500 "Server error"
    | some r =>
      if r.ok then
        .json 200 (.obj [("ok", .bool true), ("text", optStr r.text),
          ("model", .str (envOrDefault env.CCD_AI_OPENAI_MODEL "gpt-4.1-mini"))])
      else
        .json r.status (.obj [("ok", .bool false), ("error", r.error.getD .undefined)])

/-! ### Spec-side definitions

The following definitions transcribe the wording of the specification (not
the source) and are compared with the source-derived definitions above. -/

/-- Element validation as worded by the spec, section 4.1: require an
object with role in the set, content a non-empty string after trimming;
truncate surviving content to 4000 characters. -/
def specValidTurn (item : JValue) : Option Turn :=
  match item with
  | .obj _ =>
    match getProp item "role", getProp item "content" with
    | .str r, .str c =>
      if (r = "user" ∨ r = "assistant") ∧ jsTrim c ≠ "" then
        some ⟨r, strTake (jsTrim c) 4000⟩
      else none
    | _, _ => none
  | _ => none

/-- A structured (object or array) value, the spec condition for
serializing telemetry rather than substituting the empty-object
literal. -/
def isStructured : JValue → Bool
  | .obj _ => true
  | .arr _ => true
  | _ => false

/-- The flattened transcript the spec describes for the primary protocol:
each sanitized prior turn rendered and joined by newlines, followed by the
new user turn rendered the same way. -/
def primaryTranscript (input history : JValue) : String :=
  String.intercalate "\n"
    ((normalizeHistory history).map renderTurn ++ ["User: " ++ userInputOf input])

/-- Substring containment, used to state that a composite error string
contains a label or message. -/
def strContains (s t : String) : Prop :=
  ∃ pre post, pre ++ t ++ post = s

/-! ### Helper lemmas -/

lemma strTake_length_le (s : String) (n : Nat) : (strTake s n).length ≤ n := by
  have h : (strTake s n).length = (s.data.take n).length := rfl
  rw [h, List.length_take]
  omega

lemma strTake_ne_empty (s : String) (n : Nat) (hs : s ≠ "") (hn : 0 < n) :
    strTake s n ≠ "" := by
  cases s with
  | mk l =>
    cases l with
    | nil => exact absurd rfl hs
    | cons c cs =>
      cases n with
      | zero => omega
      | succ m =>
        intro h
        have hd : (strTake (String.mk (c :: cs)) (m + 1)).data = [] := by rw [h]
        simp [strTake] at hd

lemma takeLast_length_le (n : Nat) (l : List α) : (takeLast n l).length ≤ n := by
  simp [takeLast]
  omega

lemma mem_takeLast {a : α} {n : Nat} {l : List α} (h : a ∈ takeLast n l) : a ∈ l :=
  List.drop_subset _ l h

/-- The source validation of a history element agrees with the validation
worded by the spec: the only difference is the guard (truthy object versus
object), and the values accepted by one but not the other - arrays and, in
principle, other truthy objects without the required fields - fail the
role match in both. -/
lemma validTurn_eq_spec (item : JValue) : validTurn item = specValidTurn item := by
  cases item with
  | undefined => rfl
  | null => rfl
  | bool b => cases b <;> rfl
  | num n => simp [validTurn, specValidTurn, jsTruthy, typeofIsObject]
  | str s => simp [validTurn, specValidTurn, jsTruthy, typeofIsObject]
  | arr xs => simp [validTurn, specValidTurn, jsTruthy, typeofIsObject, getProp]
  | obj fields =>
    simp only [validTurn, specValidTurn, jsTruthy, typeofIsObject, Bool.and_self, if_true]
    cases hr : getProp (JValue.obj fields) "role" <;>
      cases hc : getProp (JValue.obj fields) "content" <;> simp

lemma validTurn_shape {item : JValue} {tu : Turn} (h : validTurn item = some tu) :
    (tu.role = "user" ∨ tu.role = "assistant") ∧ tu.content ≠ "" ∧
      tu.content.length ≤ 4000 := by
  unfold validTurn at h
  split at h
  · split at h
    · rename_i r c
      split at h
      · rename_i hcond
        cases h
        simp only [Bool.and_eq_true, Bool.or_eq_true, beq_iff_eq, bne_iff_ne] at hcond
        refine ⟨hcond.1, ?_, strTake_length_le _ _⟩
        exact strTake_ne_empty _ _ hcond.2 (by omega)
      · exact absurd h (by simp)
    · exact absurd h (by simp)
  · exact absurd h (by simp)

lemma normalizeHistory_mem_shape {history : JValue} {tu : Turn}
    (h : tu ∈ normalizeHistory history) :
    (tu.role = "user" ∨ tu.role = "assistant") ∧ tu.content ≠ "" ∧
      tu.content.length ≤ 4000 := by
  cases history with
  | arr items =>
    have h2 := mem_takeLast (n := 24) (by simpa [normalizeHistory] using h)
    rcases List.mem_filterMap.mp h2 with ⟨item, _, hv⟩
    exact validTurn_shape hv
  | undefined => simp [normalizeHistory] at h
  | null => simp [normalizeHistory] at h
  | bool b => simp [normalizeHistory] at h
  | num n => simp [normalizeHistory] at h
  | str s => simp [normalizeHistory] at h
  | obj fields => simp [normalizeHistory] at h

/-- The transcript the persistent-service variant builds - render every
non-system message - equals the spec transcript: prior sanitized turns
then the new user turn, since no sanitized turn carries the system
role. -/
lemma serverTranscript_eq (input history : JValue) (sp : String) :
    ((({ role := "system", content := sp } ::
        (normalizeHistory history ++ [{ role := "user", content := userInputOf input }]) :
        List Turn).filter fun m => m.role != "system").map renderTurn) =
      (normalizeHistory history).map renderTurn ++ ["User: " ++ userInputOf input] := by
  rw [List.filter_cons]
  have h1 : ((({ role := "system", content := sp } : Turn).role != "system")) = false := by
    simp
  rw [h1]
  simp only [Bool.false_eq_true, if_false, List.filter_append]
  have h2 : (normalizeHistory history).filter (fun m => m.role != "system") =
      normalizeHistory history := by
    apply List.filter_eq_self.mpr
    intro t ht
    rcases (normalizeHistory_mem_shape ht).1 with hr | hr <;> simp [hr]
  have h3 : (([{ role := "user", content := userInputOf input }] : List Turn).filter
      fun m => m.role != "system") = [{ role := "user", content := userInputOf input }] := by
    simp
  rw [h2, h3, List.map_append]
  have h4 : renderTurn { role := "user", content := userInputOf input } =
      "User: " ++ userInputOf input := by
    show ("User" ++ ": ") ++ userInputOf input = "User: " ++ userInputOf input
    rfl
  rw [List.map_singleton, h4]

/-- A failed primary HTTP status is relayed as-is by the primary
attempt. -/
lemma serverTryResponses_of_fail {p : HttpResp} (hp : httpOk p = false) :
    serverTryResponses p =
      some { ok := false, status := p.status,
             error := some (errorDetail (p.body.getD .null)) } := by
  unfold serverTryResponses
  simp [hp]

lemma serverChunksResult_cases (data : JValue) :
    serverChunksResult data = none ∨
      ∃ r, serverChunksResult data = some r ∧
        (r.ok = true ∨ (r.ok = false ∧ r.status = 502)) := by
  unfold serverChunksResult
  cases h : collectChunks data with
  | none => exact Or.inl rfl
  | some chunks =>
    by_cases ht : (jsTrim (String.intercalate "\n" chunks) == "") = true
    · refine Or.inr
        ⟨{ ok := false, status := 502, error := some (.str "OpenAI response missing text.") },
         ?_, Or.inr ⟨rfl, rfl⟩⟩
      simp [ht]
    · refine Or.inr
        ⟨{ ok := true, status := 200, text := some (jsTrim (String.intercalate "\n" chunks)) },
         ?_, Or.inl rfl⟩
      simp [ht]

/-- When the primary HTTP call succeeds, the primary attempt either throws,
succeeds, or fails with the missing-text status 502. -/
lemma serverTryResponses_ok_cases {p : HttpResp} (hp : httpOk p = true) :
    serverTryResponses p = none ∨
      ∃ r, serverTryResponses p = some r ∧
        (r.ok = true ∨ (r.ok = false ∧ r.status = 502)) := by
  unfold serverTryResponses
  simp only [hp, Bool.not_true, Bool.false_eq_true, if_false]
  cases hot : getProp (p.body.getD JValue.null) "output_text" with
  | str s =>
    by_cases hs : (jsTrim s != "") = true
    · simp only [hs, if_true]
      exact Or.inr ⟨_, rfl, Or.inl rfl⟩
    · simp only [hs, Bool.false_eq_true, if_false]
      exact serverChunksResult_cases _
  | undefined => exact serverChunksResult_cases _
  | null => exact serverChunksResult_cases _
  | bool b => exact serverChunksResult_cases _
  | num n => exact serverChunksResult_cases _
  | arr xs => exact serverChunksResult_cases _
  | obj fields => exact serverChunksResult_cases _

/-- Every status in the fallback-eligible set is an HTTP failure. -/
lemma fallbackable_not_ok {st : Nat} (h : st ∈ fallbackableStatuses) (b : Option JValue) :
    httpOk ⟨st, b⟩ = false := by
  simp [fallbackableStatuses] at h
  rcases h with h | h | h | h <;> subst h <;> rfl

/-- The `messages` array server.js builds (start.command lines 126-133):
the system instruction, the sanitized history, then the new user turn. -/
def serverMessages (input history telemetry : JValue) : List Turn :=
  { role := "system", content := systemPrompt telemetry } ::
    (normalizeHistory history ++ [{ role := "user", content := userInputOf input }])

/-- The standalone-service variant never issues a secondary-protocol
call. -/
lemma worker_no_chat (env : Env) (input history telemetry : JValue) (p : HttpResp) :
    (workerCallOpenAI env input history telemetry p).2.any isChatCall = false := by
  unfold workerCallOpenAI
  dsimp only
  repeat' split
  all_goals rfl

/-- In the persistent-service variant the secondary protocol is attempted
exactly when the primary HTTP call failed with a fallback-eligible
status. -/
lemma server_chat_called_iff (env : Env) (input history telemetry : JValue)
    (p s : HttpResp) (hkey : envFalsy env.OPENAI_API_KEY = false) :
    ((serverCallOpenAI env input history telemetry p s).2.any isChatCall = true ↔
      (httpOk p = false ∧ p.status ∈ fallbackableStatuses)) := by
  unfold serverCallOpenAI
  simp only [hkey, Bool.false_eq_true, if_false]
  by_cases hp : httpOk p = true
  · rcases serverTryResponses_ok_cases hp with hN | ⟨r, hr, hcase⟩
    · rw [hN]
      simp [isChatCall, hp]
    · rw [hr]
      rcases hcase with hok | ⟨hok, hst⟩
      · simp [hok, isChatCall, hp]
      · simp [hok, hst, isChatCall, hp, fallbackableStatuses]
  · have hp' : httpOk p = false := by
      revert hp; cases httpOk p <;> simp
    rw [serverTryResponses_of_fail hp']
    by_cases hm : p.status ∈ fallbackableStatuses
    · simp only [hm, hp', if_true, iff_true, true_and]
      by_cases h2 : (serverTryChat s).ok = true <;> simp [h2, isChatCall]
    · simp [hm, hp', isChatCall]

/-- With a configured credential the persistent-service variant always
issues the primary call first, and at most one secondary call, with the
stated payloads. -/
lemma serverCalls_cases (env : Env) (input history telemetry : JValue)
    (p s : HttpResp) (hkey : envFalsy env.OPENAI_API_KEY = false) :
    (serverCallOpenAI env input history telemetry p s).2 =
      [.responses (envOrDefault env.CCD_AI_OPENAI_MODEL "gpt-4.1-mini")
        (systemPrompt telemetry) (primaryTranscript input history)] ∨
    (serverCallOpenAI env input history telemetry p s).2 =
      [.responses (envOrDefault env.CCD_AI_OPENAI_MODEL "gpt-4.1-mini")
        (systemPrompt telemetry) (primaryTranscript input history),
       .chatCompletions (envOrDefault env.CCD_AI_OPENAI_MODEL "gpt-4.1-mini")
        (serverMessages input history telemetry)] := by
  unfold serverCallOpenAI
  simp only [hkey, Bool.false_eq_true, if_false]
  try dsimp only
  rw [serverTranscript_eq input history (systemPrompt telemetry)]
  repeat' split
  all_goals first | exact Or.inl rfl | exact Or.inr rfl

/-- A failed primary attempt whose status is not fallback-eligible is
returned unchanged, with no secondary call. -/
lemma server_surfaces_primary (env : Env) (input history telemetry : JValue)
    (p s : HttpResp) (r1 : CompletionResult)
    (hkey : envFalsy env.OPENAI_API_KEY = false)
    (h1 : serverTryResponses p = some r1) (h1ok : r1.ok = false)
    (h1nm : r1.status ∉ fallbackableStatuses) :
    (serverCallOpenAI env input history telemetry p s).1 = some r1 ∧
    (serverCallOpenAI env input history telemetry p s).2.any isChatCall = false := by
  unfold serverCallOpenAI
  simp only [hkey, Bool.false_eq_true, if_false]
  try dsimp only
  rw [h1]
  simp [h1ok, h1nm, isChatCall]

lemma strContains_mid (a b c : String) : strContains (a ++ b ++ c) b :=
  ⟨a, c, rfl⟩

lemma strContains_last (a b : String) : strContains (a ++ b) b :=
  ⟨a, "", String.append_empty _⟩

lemma strContains_first (b c : String) : strContains (b ++ c) b :=
  ⟨"", c, by rw [String.empty_append]⟩

/-! ### Claim theorems -/

/-- C4: In the persistent-service variant the secondary protocol is
attempted if and only if the primary attempt fails with an HTTP status in
the fallback-eligible set {400, 404, 405, 415}; for any primary failure
with a status outside that set, the secondary protocol is never called and
the primary status and error message are surfaced directly. -/
theorem c4_fallback_gating (env : Env) (input history telemetry : JValue)
    (p s : HttpResp) (hkey : envFalsy env.OPENAI_API_KEY = false) :
    ((serverCallOpenAI env input history telemetry p s).2.any isChatCall = true ↔
      (httpOk p = false ∧ p.status ∈ fallbackableStatuses)) ∧
    (httpOk p = false → p.status ∉ fallbackableStatuses →
      (serverCallOpenAI env input history telemetry p s).1 =
        some { ok := false, status := p.status,
               error := some (errorDetail (p.body.getD .null)) } ∧
      (serverCallOpenAI env input history telemetry p s).2.any isChatCall = false) := by
  refine ⟨server_chat_called_iff env input history telemetry p s hkey, fun hf hnm => ?_⟩
  exact server_surfaces_primary env input history telemetry p s _ hkey
    (serverTryResponses_of_fail hf) rfl hnm

/-- Witness for c4_fallback_gating: a 404 primary failure engages exactly
one secondary call. -/
theorem c4_witness :
    envFalsy (Env.mk (some "k") none none).OPENAI_API_KEY = false ∧
    ((serverCallOpenAI ⟨some "k", none, none⟩ (.str "hi") .undefined .undefined
      ⟨404, none⟩ ⟨200, none⟩).2.map isChatCall = [false, true]) ∧
    (((serverCallOpenAI ⟨some "k", none, none⟩ (.str "hi") .undefined .undefined
        ⟨404, none⟩ ⟨200, none⟩).2.any isChatCall = true ↔
      (httpOk ⟨404, none⟩ = false ∧ (404 : Nat) ∈ fallbackableStatuses))) :=
  ⟨rfl, rfl,
    (c4_fallback_gating ⟨some "k", none, none⟩ (.str "hi") .undefined .undefined
      ⟨404, none⟩ ⟨200, none⟩ rfl).1⟩

/-- C5: For every value passed as history, the sanitized result has at most
24 turns, every kept turn has a valid role and a non-empty content of at
most 4000 characters, the result is exactly the valid turns (as worded by
the spec) with only the last 24 kept in original order, and a non-array
history yields the empty sequence. -/
theorem c5_history_sanitizer (history : JValue) :
    (normalizeHistory history).length ≤ 24 ∧
    (∀ tu ∈ normalizeHistory history,
      (tu.role = "user" ∨ tu.role = "assistant") ∧ tu.content ≠ "" ∧
        tu.content.length ≤ 4000) ∧
    (∀ items, history = .arr items →
      normalizeHistory history = takeLast 24 (items.filterMap specValidTurn)) ∧
    ((∀ items, history ≠ .arr items) → normalizeHistory history = []) := by
  refine ⟨?_, fun tu h => normalizeHistory_mem_shape h, ?_, ?_⟩
  · cases history <;> simp [normalizeHistory, takeLast_length_le]
  · intro items heq
    subst heq
    simp only [normalizeHistory]
    rw [show validTurn = specValidTurn from funext validTurn_eq_spec]
  · intro hne
    cases history with
    | arr items => exact absurd rfl (hne items)
    | undefined => rfl
    | null => rfl
    | bool b => rfl
    | num n => rfl
    | str s => rfl
    | obj fields => rfl

/-- Witness for c5_history_sanitizer: 25 valid turns are cut to the last
24. -/
theorem c5_witness :
    normalizeHistory
        (.arr (List.replicate 25 (.obj [("role", .str "user"), ("content", .str "m")]))) =
      takeLast 24 ((List.replicate 25
        (JValue.obj [("role", .str "user"), ("content", .str "m")])).filterMap specValidTurn) ∧
    (normalizeHistory
        (.arr (List.replicate 25
          (.obj [("role", .str "user"), ("content", .str "m")])))).length = 24 :=
  ⟨(c5_history_sanitizer _).2.2.1 _ rfl, by rfl⟩

/-- C7: Whenever the primary and the secondary attempt both fail, the
result is a failure carrying the secondary status and a composite error
string containing both protocol labels and both error messages. -/
theorem c7_composite_error (env : Env) (input history telemetry : JValue)
    (p s : HttpResp) (r1 : CompletionResult)
    (hkey : envFalsy env.OPENAI_API_KEY = false)
    (h1 : serverTryResponses p = some r1) (h1ok : r1.ok = false)
    (h1m : r1.status ∈ fallbackableStatuses)
    (h2ok : (serverTryChat s).ok = false) :
    (serverCallOpenAI env input history telemetry p s).1 =
      some { ok := false, status := (serverTryChat s).status,
             error := some (.str ("Responses API error: " ++
               jsToString (r1.error.getD .undefined) ++
               "\nChat Completions error: " ++
               jsToString ((serverTryChat s).error.getD .undefined))) } ∧
    strContains ("Responses API error: " ++ jsToString (r1.error.getD .undefined) ++
        "\nChat Completions error: " ++ jsToString ((serverTryChat s).error.getD .undefined))
      "Responses API error:" ∧
    strContains ("Responses API error: " ++ jsToString (r1.error.getD .undefined) ++
        "\nChat Completions error: " ++ jsToString ((serverTryChat s).error.getD .undefined))
      "Chat Completions error:" ∧
    strContains ("Responses API error: " ++ jsToString (r1.error.getD .undefined) ++
        "\nChat Completions error: " ++ jsToString ((serverTryChat s).error.getD .undefined))
      (jsToString (r1.error.getD .undefined)) ∧
    strContains ("Responses API error: " ++ jsToString (r1.error.getD .undefined) ++
        "\nChat Completions error: " ++ jsToString ((serverTryChat s).error.getD .undefined))
      (jsToString ((serverTryChat s).error.getD .undefined)) := by
  refine ⟨?_, ?_, ?_, ?_, ?_⟩
  · unfold serverCallOpenAI
    simp only [hkey, Bool.false_eq_true, if_false]
    try dsimp only
    rw [h1]
    simp [h1ok, h1m, h2ok]
  · have hE : ("Responses API error: " ++ jsToString (r1.error.getD .undefined) ++
        "\nChat Completions error: " ++ jsToString ((serverTryChat s).error.getD .undefined)) =
        "Responses API error:" ++ (" " ++ (jsToString (r1.error.getD .undefined) ++
          ("\nChat Completions error: " ++ jsToString ((serverTryChat s).error.getD .undefined)))) := by
      have hA : ("Responses API error: " : String) = "Responses API error:" ++ " " := rfl
      rw [hA]
      simp only [String.append_assoc]
    rw [hE]
    exact strContains_first _ _
  · have hE : ("Responses API error: " ++ jsToString (r1.error.getD .undefined) ++
        "\nChat Completions error: " ++ jsToString ((serverTryChat s).error.getD .undefined)) =
        ("Responses API error: " ++ jsToString (r1.error.getD .undefined) ++ "\n") ++
          "Chat Completions error:" ++
          (" " ++ jsToString ((serverTryChat s).error.getD .undefined)) := by
      have hB : ("\nChat Completions error: " : String) =
          "\n" ++ "Chat Completions error:" ++ " " := rfl
      rw [hB]
      simp only [String.append_assoc]
    rw [hE]
    exact strContains_mid _ _ _
  · have hE : ("Responses API error: " ++ jsToString (r1.error.getD .undefined) ++
        "\nChat Completions error: " ++ jsToString ((serverTryChat s).error.getD .undefined)) =
        "Responses API error: " ++ jsToString (r1.error.getD .undefined) ++
          ("\nChat Completions error: " ++ jsToString ((serverTryChat s).error.getD .undefined)) := by
      simp only [String.append_assoc]
    rw [hE]
    exact strContains_mid _ _ _
  · exact strContains_last _ _

/-- Witness for c7_composite_error: both protocols fail with messages E1
and E2; the composite keeps the secondary status 500 and both labeled
messages. -/
theorem c7_witness :
    serverTryResponses ⟨404, some (.obj [("error", .obj [("message", .str "E1")])])⟩ =
      some { ok := false, status := 404, error := some (.str "E1") } ∧
    (serverTryChat ⟨500, some (.obj [("error", .obj [("message", .str "E2")])])⟩).ok = false ∧
    (serverCallOpenAI ⟨some "k", none, none⟩ (.str "q") .undefined .undefined
        ⟨404, some (.obj [("error", .obj [("message", .str "E1")])])⟩
        ⟨500, some (.obj [("error", .obj [("message", .str "E2")])])⟩).1 =
      some { ok := false, status := 500,
             error := some (.str "Responses API error: E1\nChat Completions error: E2") } :=
  ⟨rfl, rfl, by
    have h := (c7_composite_error ⟨some "k", none, none⟩ (.str "q") .undefined .undefined
      ⟨404, some (.obj [("error", .obj [("message", .str "E1")])])⟩
      ⟨500, some (.obj [("error", .obj [("message", .str "E2")])])⟩
      { ok := false, status := 404, error := some (.str "E1") }
      rfl rfl rfl (by decide) rfl).1
    exact h⟩

/-- C8: With no configured credential both variants fail immediately with a
configuration error (status 500) and no provider call, for every input -
including empty input, which would otherwise be a 400: the credential check
precedes input validation. -/
theorem c8_missing_credential (env : Env) (input history telemetry : JValue)
    (p s : HttpResp) (hkey : envFalsy env.OPENAI_API_KEY = true) :
    workerCallOpenAI env input history telemetry p =
      (some { ok := false, status := 500,
              error := some (.str "Missing OPENAI_API_KEY.") }, []) ∧
    serverCallOpenAI env input history telemetry p s =
      (some { ok := false, status := 500,
              error := some (.str "Missing OPENAI_API_KEY in environment.") }, []) := by
  constructor
  · unfold workerCallOpenAI
    simp [hkey]
  · unfold serverCallOpenAI
    simp [hkey]

/-- Witness for c8_missing_credential: unset credential and empty input
give 500, not 400, in both variants, with no provider call. -/
theorem c8_witness :
    envFalsy (Env.mk none none none).OPENAI_API_KEY = true ∧
    (workerCallOpenAI ⟨none, none, none⟩ (.str "") .undefined .undefined ⟨200, none⟩ =
      (some { ok := false, status := 500,
              error := some (.str "Missing OPENAI_API_KEY.") }, []) ∧
     serverCallOpenAI ⟨none, none, none⟩ (.str "") .undefined .undefined
        ⟨200, none⟩ ⟨200, none⟩ =
      (some { ok := false, status := 500,
              error := some (.str "Missing OPENAI_API_KEY in environment.") }, [])) :=
  ⟨rfl, c8_missing_credential ⟨none, none, none⟩ (.str "") .undefined .undefined
    ⟨200, none⟩ ⟨200, none⟩ rfl⟩

/-- C9: The composed system instruction is the persona text, a blank line,
the label line, then the telemetry serialized as indented JSON when the
telemetry is a structured (object or array) value, and the literal
empty-object text otherwise (absent, null, boolean, number or string); a
concrete structured telemetry appears pretty-printed verbatim. -/
theorem c9_instruction_composition (telemetry : JValue) :
    systemPrompt telemetry =
      personaText ++ "\n\nTelemetry snapshot (JSON):\n" ++
        (if isStructured telemetry then (stringifyPretty telemetry 0).getD "undefined"
         else "{}") ∧
    systemPrompt (.obj [("line1", .obj [("status", .str "ok")])]) =
      personaText ++
        "\n\nTelemetry snapshot (JSON):\n\x7b\n  \"line1\": \x7b\n    \"status\": \"ok\"\n  \x7d\n\x7d" := by
  constructor
  · cases telemetry <;>
      simp [systemPrompt, telemetryJson, isStructured, jsTruthy, typeofIsObject]
  · rfl

/-- C10: In both variants the new user turn sent to the provider is the
input coerced to string, trimmed, and truncated to at most 4000
characters: it closes the primary-protocol transcript, and it is the last
message of any secondary-protocol call. -/
theorem c10_user_turn (env : Env) (input history telemetry : JValue)
    (p s : HttpResp) (hkey : envFalsy env.OPENAI_API_KEY = false) :
    (userInputOf input).length ≤ 4000 ∧
    (userInputOf input ≠ "" →
      (workerCallOpenAI env input history telemetry p).2 =
        [.responses (envOrDefault env.OPENAI_MODEL "gpt-4.1") (systemPrompt telemetry)
          (primaryTranscript input history)]) ∧
    ((serverCallOpenAI env input history telemetry p s).2.head? =
      some (.responses (envOrDefault env.CCD_AI_OPENAI_MODEL "gpt-4.1-mini")
        (systemPrompt telemetry) (primaryTranscript input history))) ∧
    (∀ c ∈ (serverCallOpenAI env input history telemetry p s).2, isChatCall c = true →
      c = .chatCompletions (envOrDefault env.CCD_AI_OPENAI_MODEL "gpt-4.1-mini")
        (serverMessages input history telemetry)) := by
  refine ⟨strTake_length_le _ _, fun hin => ?_, ?_, ?_⟩
  · unfold workerCallOpenAI
    have h1 : (userInputOf input == "") = false := by
      simpa using hin
    simp only [hkey, Bool.false_eq_true, if_false, h1]
    try dsimp only
    repeat' split
    all_goals rfl
  · rcases serverCalls_cases env input history telemetry p s hkey with h | h <;> rw [h] <;> rfl
  · intro c hc hchat
    rcases serverCalls_cases env input history telemetry p s hkey with h | h <;>
      rw [h] at hc <;> simp at hc
    · subst hc
      exact absurd hchat (by simp [isChatCall])
    · rcases hc with hc | hc
      · subst hc
        exact absurd hchat (by simp [isChatCall])
      · subst hc
        rfl

/-- C1 counterexample: with a configured credential and whitespace-only
input, the persistent-service variant does not return a 400 MissingInput
error and does perform a provider call - it forwards the request (with an
empty user turn) and here even succeeds. -/
theorem c1_counterexample :
    ((serverCallOpenAI ⟨some "k", none, none⟩ (.str "  ") .undefined .undefined
        ⟨200, some (.obj [("output_text", .str "Hello")])⟩ ⟨200, none⟩).1.map
          fun r => (r.ok, r.status)) = some (true, 200) ∧
    (serverCallOpenAI ⟨some "k", none, none⟩ (.str "  ") .undefined .undefined
        ⟨200, some (.obj [("output_text", .str "Hello")])⟩ ⟨200, none⟩).2.length = 1 :=
  ⟨rfl, rfl⟩

/-- C1 amended: only the standalone-service (edge) variant rejects an
empty-after-coercion-and-trim input with a 400 MissingInput error and no
provider call; the persistent-service variant has no input validation and
always issues the primary provider call. -/
theorem c1_amended (env : Env) (input history telemetry : JValue)
    (p s : HttpResp) (hkey : envFalsy env.OPENAI_API_KEY = false)
    (hin : jsTrim (inputString input) = "") :
    workerCallOpenAI env input history telemetry p =
      (some { ok := false, status := 400, error := some (.str "Missing input.") }, []) ∧
    (serverCallOpenAI env input history telemetry p s).2 ≠ [] := by
  constructor
  · unfold workerCallOpenAI
    have h1 : (userInputOf input == "") = true := by
      simp [userInputOf, hin, strTake]
    simp [hkey, h1]
  · rcases serverCalls_cases env input history telemetry p s hkey with h | h <;>
      rw [h] <;> simp

/-- Witness for c1_amended at whitespace-only input. -/
theorem c1_witness :
    envFalsy (Env.mk (some "k") none none).OPENAI_API_KEY = false ∧
    jsTrim (inputString (.str "  ")) = "" ∧
    (workerCallOpenAI ⟨some "k", none, none⟩ (.str "  ") .undefined .undefined ⟨200, none⟩ =
      (some { ok := false, status := 400, error := some (.str "Missing input.") }, []) ∧
     (serverCallOpenAI ⟨some "k", none, none⟩ (.str "  ") .undefined .undefined
        ⟨200, none⟩ ⟨200, none⟩).2 ≠ []) :=
  ⟨rfl, rfl, c1_amended ⟨some "k", none, none⟩ (.str "  ") .undefined .undefined
    ⟨200, none⟩ ⟨200, none⟩ rfl rfl⟩

/-- C2 counterexample: in the persistent-service variant an
EmptyResponseError from the primary protocol (HTTP success with no
extractable text, status 502) is NOT retried via fallback: the 502 is
surfaced and the secondary protocol is never called, even though a
successful secondary response is available. -/
theorem c2_counterexample :
    ((serverCallOpenAI ⟨some "k", none, none⟩ (.str "hi") .undefined .undefined
        ⟨200, some (.obj [])⟩
        ⟨200, some (.obj [("choices",
          .arr [.obj [("message", .obj [("content", .str "Hi there")])]])])⟩).1.map
          fun r => (r.ok, r.status)) = some (false, 502) ∧
    (serverCallOpenAI ⟨some "k", none, none⟩ (.str "hi") .undefined .undefined
        ⟨200, some (.obj [])⟩
        ⟨200, some (.obj [("choices",
          .arr [.obj [("message", .obj [("content", .str "Hi there")])]])])⟩).2.map
          isChatCall = [false] :=
  ⟨rfl, rfl⟩

/-- C2 amended: in neither variant is an EmptyResponseError (status 502)
from the primary protocol fallback-eligible: the persistent-service
variant surfaces the 502 without attempting the secondary protocol (502 is
outside the fallback set), and the standalone-service variant has no
secondary protocol at all. -/
theorem c2_amended (env : Env) (input history telemetry : JValue)
    (p s : HttpResp) (r1 : CompletionResult)
    (hkey : envFalsy env.OPENAI_API_KEY = false)
    (h1 : serverTryResponses p = some r1) (h1ok : r1.ok = false)
    (h1s : r1.status = 502) :
    (serverCallOpenAI env input history telemetry p s).1 = some r1 ∧
    (serverCallOpenAI env input history telemetry p s).2.any isChatCall = false ∧
    (workerCallOpenAI env input history telemetry p).2.any isChatCall = false := by
  have hnm : r1.status ∉ fallbackableStatuses := by
    rw [h1s]; decide
  rcases server_surfaces_primary env input history telemetry p s r1 hkey h1 h1ok hnm
    with ⟨ha, hb⟩
  exact ⟨ha, hb, worker_no_chat env input history telemetry p⟩

/-- Witness for c2_amended: an empty provider body yields the 502 result
with a single primary call. -/
theorem c2_witness :
    serverTryResponses ⟨200, some (.obj [])⟩ =
      some { ok := false, status := 502,
             error := some (.str "OpenAI response missing text.") } ∧
    ((serverCallOpenAI ⟨some "k", none, none⟩ (.str "hi") .undefined .undefined
        ⟨200, some (.obj [])⟩ ⟨200, none⟩).1 =
      some { ok := false, status := 502,
             error := some (.str "OpenAI response missing text.") } ∧
     (serverCallOpenAI ⟨some "k", none, none⟩ (.str "hi") .undefined .undefined
        ⟨200, some (.obj [])⟩ ⟨200, none⟩).2.any isChatCall = false ∧
     (workerCallOpenAI ⟨some "k", none, none⟩ (.str "hi") .undefined .undefined
        ⟨200, some (.obj [])⟩).2.any isChatCall = false) :=
  ⟨rfl, c2_amended ⟨some "k", none, none⟩ (.str "hi") .undefined .undefined
    ⟨200, some (.obj [])⟩ ⟨200, none⟩
    { ok := false, status := 502, error := some (.str "OpenAI response missing text.") }
    rfl rfl rfl rfl⟩

/-- C3 counterexample: same configuration, same input, same provider
responses - the primary failing with 404 and the secondary succeeding -
yet the standalone-service strategy fails with 404 while the
persistent-service strategy succeeds with 200: the two variants do not
produce the same CompletionResult. -/
theorem c3_counterexample :
    ((workerCallOpenAI ⟨some "k", some "m", some "m"⟩ (.str "hi") .undefined .undefined
        ⟨404, some (.obj [("error", .obj [("message", .str "nope")])])⟩).1.map
          fun r => (r.ok, r.status)) = some (false, 404) ∧
    ((serverCallOpenAI ⟨some "k", some "m", some "m"⟩ (.str "hi") .undefined .undefined
        ⟨404, some (.obj [("error", .obj [("message", .str "nope")])])⟩
        ⟨200, some (.obj [("choices",
          .arr [.obj [("message", .obj [("content", .str "Hi there")])]])])⟩).1.map
          fun r => (r.ok, r.status)) = some (true, 200) :=
  ⟨rfl, rfl⟩

/-- C3 amended: the two variants agree only outside their diverging
features: with a configured credential, a non-empty sanitized input and a
primary failure whose status is not fallback-eligible, both produce the
same CompletionResult (same ok, status, text, error).  They diverge when
the primary fails with a fallback-eligible status (the persistent variant
consults the secondary protocol, the standalone variant cannot), on empty
input (standalone rejects with 400, persistent forwards), on trimming of
the direct output text, and in fixed error message wording. -/
theorem c3_amended (env : Env) (input history telemetry : JValue)
    (p s : HttpResp) (hkey : envFalsy env.OPENAI_API_KEY = false)
    (hin : userInputOf input ≠ "")
    (hfail : httpOk p = false)
    (hnm : p.status ∉ fallbackableStatuses) :
    (workerCallOpenAI env input history telemetry p).1 =
      some { ok := false, status := p.status,
             error := some (errorDetail (p.body.getD .null)) } ∧
    (serverCallOpenAI env input history telemetry p s).1 =
      some { ok := false, status := p.status,
             error := some (errorDetail (p.body.getD .null)) } := by
  constructor
  · unfold workerCallOpenAI
    have h1 : (userInputOf input == "") = false := by
      simpa using hin
    simp [hkey, h1, hfail]
  · exact (server_surfaces_primary env input history telemetry p s _ hkey
      (serverTryResponses_of_fail hfail) rfl hnm).1

/-- Witness for c3_amended: a 500 primary failure with no body is surfaced
identically by both variants. -/
theorem c3_witness :
    envFalsy (Env.mk (some "k") (some "m") (some "m")).OPENAI_API_KEY = false ∧
    userInputOf (.str "hi") ≠ "" ∧
    httpOk ⟨500, none⟩ = false ∧
    ((workerCallOpenAI ⟨some "k", some "m", some "m"⟩ (.str "hi") .undefined .undefined
        ⟨500, none⟩).1 =
      some { ok := false, status := 500, error := some (errorDetail .null) } ∧
     (serverCallOpenAI ⟨some "k", some "m", some "m"⟩ (.str "hi") .undefined .undefined
        ⟨500, none⟩ ⟨200, none⟩).1 =
      some { ok := false, status := 500, error := some (errorDetail .null) }) :=
  ⟨rfl, by decide, rfl,
    c3_amended ⟨some "k", some "m", some "m"⟩ (.str "hi") .undefined .undefined
      ⟨500, none⟩ ⟨200, none⟩ rfl (by decide) rfl (by decide)⟩

/-- C6 counterexample: in the persistent-service variant a malformed JSON
body is not treated as an absent body, and the error is not converted to a
JSON envelope: the boundary returns plain-text 500 Server error, while an
actually absent body reaches the strategy and yields a JSON envelope. -/
theorem c6_counterexample :
    serverChatResponse ⟨none, none, none⟩ "\x7b" none ⟨200, none⟩ ⟨200, none⟩ =
      .text 500 "Server error" ∧
    serverChatResponse ⟨none, none, none⟩ "" none ⟨200, none⟩ ⟨200, none⟩ =
      .json 500 (.obj [("ok", .bool false),
        ("error", .str "Missing OPENAI_API_KEY in environment.")]) :=
  ⟨rfl, rfl⟩

/-- C6 amended: only the standalone-service variant treats a malformed
JSON body as an absent body (its chat response is identical to the
empty-body response); the persistent-service variant instead fails hard at
the boundary, answering plain-text 500 Server error - not a JSON error
envelope - for a malformed body, exactly as it does for a body exceeding
the 1,000,000-byte size limit (which is rejected before parsing).  The
process does not crash in either case. -/
theorem c6_amended (env : Env) (raw : String) (p s : HttpResp)
    (hraw : jsTrim raw ≠ "") (hsize : raw.utf8ByteSize ≤ 1000000) :
    workerChatResponse env raw none p = workerChatResponse env "" none p ∧
    serverChatResponse env raw none p s = .text 500 "Server error" ∧
    (∀ raw2 : String, ∀ parsed : Option JValue, 1000000 < raw2.utf8ByteSize →
      serverChatResponse env raw2 parsed p s = .text 500 "Server error") := by
  refine ⟨?_, ?_, fun raw2 parsed hbig => ?_⟩
  · have hbody : workerReadJson raw none = workerReadJson "" none := by
      unfold workerReadJson
      simp [hraw]
    unfold workerChatResponse
    rw [hbody]
  · unfold serverChatResponse serverReadJson
    have h1 : ¬(1000000 < raw.utf8ByteSize) := by omega
    simp [h1, hraw]
  · unfold serverChatResponse serverReadJson
    simp [hbig]

/-- Witness for c6_amended at a malformed one-character body. -/
theorem c6_witness :
    jsTrim "\x7b" ≠ "" ∧
    ("\x7b" : String).utf8ByteSize ≤ 1000000 ∧
    (workerChatResponse ⟨none, none, none⟩ "\x7b" none ⟨200, none⟩ =
      workerChatResponse ⟨none, none, none⟩ "" none ⟨200, none⟩ ∧
     serverChatResponse ⟨none, none, none⟩ "\x7b" none ⟨200, none⟩ ⟨200, none⟩ =
      .text 500 "Server error" ∧
     (∀ raw2 : String, ∀ parsed : Option JValue, 1000000 < raw2.utf8ByteSize →
       serverChatResponse ⟨none, none, none⟩ raw2 parsed ⟨200, none⟩ ⟨200, none⟩ =
         .text 500 "Server error")) :=
  ⟨by decide, by decide,
    c6_amended ⟨none, none, none⟩ "\x7b" ⟨200, none⟩ ⟨200, none⟩ (by decide) (by decide)⟩

/-- Witness for c10_user_turn: a padded 3-character input is sent trimmed
as the final transcript line. -/
theorem c10_witness :
    envFalsy (Env.mk (some "k") none none).OPENAI_API_KEY = false ∧
    userInputOf (.str "  hi  ") ≠ "" ∧
    (userInputOf (.str "  hi  ")).length ≤ 4000 ∧
    (workerCallOpenAI ⟨some "k", none, none⟩ (.str "  hi  ") .undefined .undefined
        ⟨500, none⟩).2 =
      [.responses "gpt-4.1" (systemPrompt .undefined)
        (primaryTranscript (.str "  hi  ") .undefined)] ∧
    primaryTranscript (.str "  hi  ") .undefined = "User: hi" :=
  ⟨rfl, by decide, (c10_user_turn ⟨some "k", none, none⟩ (.str "  hi  ") .undefined .undefined
      ⟨500, none⟩ ⟨200, none⟩ rfl).1,
    (c10_user_turn ⟨some "k", none, none⟩ (.str "  hi  ") .undefined .undefined
      ⟨500, none⟩ ⟨200, none⟩ rfl).2.1 (by decide), by rfl⟩

end StarChart
